import Mathlib

/-!
Verification development for the `the_last_application` job-crawl pipeline.

The Python sources are embedded shallowly:
* `src/src/utils.py` — `get_attributes`, `make_linkedin_url`;
* `src/src/job_data.py` — `get_job_info`, `validate_job_info`;
* `src/main.py` — the per-card crawl loop of `main`;
* `src/tla_dashboard/utils/db_helper.py` — `retry_failed_application`,
  `get_dashboard_stats`, `get_success_rate_by_company` (the SQL text is the
  source being modelled; tables become lists of rows).

Machine-level conventions: a DOM element handle is a finite tree `Elem`
recording its flat attribute list, its text, and, per CSS selector, the list
of elements the browser engine would return for that selector.  A Python
exception is an `Except` error; a Python `None` is `Option.none`.
-/

namespace TLA

/-- A rendered DOM element as exposed by the browser collaborator
(`nodriver`): a flat attribute name/value list, a text content, and the
(ordered) query results for each selector string. -/
inductive Elem where
  | mk (attributes : List String) (text : String) (sel : List (String × List Elem))

/-- The flat attribute list of an element (`elem.attributes` in Python:
alternating names and values). -/
def Elem.attributes : Elem → List String
  | .mk a _ _ => a

/-- The text content of an element (`elem.text` in Python). -/
def Elem.text : Elem → String
  | .mk _ t _ => t

/-- `element.query_selector_all(s)`: every element the engine returns for
selector `s`, in document order (empty when the selector matches nothing). -/
def Elem.query_selector_all (e : Elem) (s : String) : List Elem :=
  match e with
  | .mk _ _ sel => ((sel.find? (fun p => p.1 == s)).map (fun p => p.2)).getD []

/-- `element.query_selector(s)`: the first element matching selector `s`,
or `None` when there is none. -/
def Elem.query_selector (e : Elem) (s : String) : Option Elem :=
  (e.query_selector_all s).head?

/-- Python exceptions that the embedded code can raise. -/
inductive PyError where
  | attributeError
  | indexError
deriving DecidableEq

/-- Lookup in a Python dict built by inserting the pairs `ps` left to right:
a later pair with the same key overrides an earlier one.  This models both
the dict comprehension in `get_attributes` and Python's `dict.get(k, None)`. -/
def pyDict (ps : List (String × String)) (k : String) : Option String :=
  ps.foldl (fun acc p => if p.1 = k then some p.2 else acc) none

/-- Chop a flat list into consecutive pairs:
`[a, b, c, d] ↦ [(a, b), (c, d)]` (a trailing odd element is dropped;
`get_attributes` only reaches this on even-length input). -/
def toPairs : List String → List (String × String)
  | a :: b :: rest => (a, b) :: toPairs rest
  | _ => []

/-- `src/src/utils.py`, `get_attributes(elem)`:
`{elem.attributes[i]: elem.attributes[i+1] for i in range(0, len(elem.attributes), 2)}`.
Called on `None` it raises `AttributeError`; on an element with an odd
number of attribute entries the comprehension reads one past the end and
raises `IndexError`; otherwise it yields the dict of consecutive pairs. -/
def get_attributes : Option Elem → Except PyError (List (String × String))
  | none => .error .attributeError
  | some e =>
    if e.attributes.length % 2 = 0 then .ok (toPairs e.attributes)
    else .error .indexError

/-- UTF-8 encoding of one character, as a list of byte values. -/
def utf8Bytes (c : Char) : List Nat :=
  let n := c.toNat
  if n < 0x80 then [n]
  else if n < 0x800 then [0xC0 + n / 0x40, 0x80 + n % 0x40]
  else if n < 0x10000 then
    [0xE0 + n / 0x1000, 0x80 + n / 0x40 % 0x40, 0x80 + n % 0x40]
  else
    [0xF0 + n / 0x40000, 0x80 + n / 0x1000 % 0x40, 0x80 + n / 0x40 % 0x40,
      0x80 + n % 0x40]

/-- The bytes `urllib.parse.quote_plus` never escapes: ASCII letters,
digits, and `_ . - ~`. -/
def isSafeByte (b : Nat) : Bool :=
  (0x41 ≤ b && b ≤ 0x5A) || (0x61 ≤ b && b ≤ 0x7A) ||
    (0x30 ≤ b && b ≤ 0x39) || b == 0x5F || b == 0x2E || b == 0x2D || b == 0x7E

/-- Uppercase hexadecimal digit for a value below 16. -/
def hexDigit (n : Nat) : Char :=
  if n < 10 then Char.ofNat (0x30 + n) else Char.ofNat (0x41 + (n - 10))

/-- Percent-encoding of one byte under `quote_plus`: safe bytes pass
through, a space becomes `+`, anything else becomes `%XX`. -/
def encodeByte (b : Nat) : List Char :=
  if isSafeByte b then [Char.ofNat b]
  else if b == 0x20 then ['+']
  else ['%', hexDigit (b / 16), hexDigit (b % 16)]

/-- `urllib.parse.quote_plus`: UTF-8 encode, then percent-encode
byte-by-byte. -/
def quote_plus (s : String) : String :=
  String.mk ((s.data.flatMap utf8Bytes).flatMap encodeByte)

/-- `urllib.parse.urlencode` over an insertion-ordered parameter list:
`k=v` components joined by `&`, keys and values passed through
`quote_plus`. -/
def urlencode (params : List (String × String)) : String :=
  String.intercalate "&" (params.map (fun p => quote_plus p.1 ++ "=" ++ quote_plus p.2))

/-- `src/src/utils.py`, `make_linkedin_url(base_url, keyword, geo_id=None,
easy_apply=False)`.  Python truthiness of `geo_id` means both `None` and the
empty string omit the `geoId` parameter. -/
def make_linkedin_url (base_url : String) (keyword : String)
    (geo_id : Option String) (easy_apply : Bool) : String :=
  let params := [("keywords", keyword)]
  let params :=
    match geo_id with
    | some g => if g.isEmpty then params else params ++ [("geoId", g)]
    | none => params
  let params := if easy_apply then params ++ [("f_AL", "true")] else params
  base_url ++ "?" ++ urlencode params

/-- The candidate job record built by the extractor: all eight keys are
always present, each individually nullable. -/
structure JobInfo where
  job_id : Option String
  job_link : Option String
  title : Option String
  company : Option String
  location : Option String
  hirer_name : Option String
  hirer_profile_link : Option String
  description : Option String
deriving DecidableEq, Repr

/-- `job_data.py` lines 9–10: `job_link = await card_element.query_selector("a")`
then `get_attributes(job_link).get("href", None) if job_link else None`. -/
def link_href (card_element : Elem) : Except PyError (Option String) :=
  match card_element.query_selector "a" with
  | none => .ok none
  | some jl => (get_attributes (some jl)).map (fun d => pyDict d "href")

/-- `job_data.py` lines 19–26: the hiring-manager panel is queried on the
page; when present, its text is the hirer name and
`get_attributes(hirer_profile_link)` is called on the panel's first link —
with no `None` guard, so a panel without a link raises `AttributeError`. -/
def hirer_fields (page : Elem) : Except PyError (Option String × Option String) :=
  match page.query_selector ".hirer-card__hirer-information" with
  | none => .ok (none, none)
  | some hi =>
    (get_attributes (hi.query_selector "a")).map
      (fun d => (some hi.text, pyDict d "href"))

/-- `job_data.py` lines 28–30: the description is the newline-join of the
paragraph texts in the page's description container, `None` when that query
returns no elements (Python list falsiness). -/
def description_of (page : Elem) : Option String :=
  match page.query_selector_all ".jobs-description__container p" with
  | [] => none
  | ds => some (String.intercalate "\n" (ds.map Elem.text))

/-- `src/src/job_data.py`, `get_job_info(page, card)`.  The first step
`get_attributes(card_element)` has no `None` guard, so a card without the
content wrapper raises `AttributeError`. -/
def get_job_info (page : Elem) (card : Elem) : Except PyError JobInfo :=
  match card.query_selector ".job-card-job-posting-card-wrapper" with
  | none => .error .attributeError
  | some card_element =>
    match get_attributes (some card_element) with
    | .error e => .error e
    | .ok job_attributes =>
      match link_href card_element with
      | .error e => .error e
      | .ok job_link =>
        match hirer_fields page with
        | .error e => .error e
        | .ok hf =>
          .ok
            { job_id := pyDict job_attributes "data-job-id"
              job_link := job_link
              title := (card_element.query_selector "strong").map Elem.text
              company := (card_element.query_selector ".artdeco-entity-lockup__subtitle").map Elem.text
              location := (card_element.query_selector ".artdeco-entity-lockup__caption").map Elem.text
              hirer_name := hf.1
              hirer_profile_link := hf.2
              description := description_of page }

/-- Python truthiness of an optional string: `None` and `""` are falsy. -/
def truthy : Option String → Bool
  | none => false
  | some s => !s.isEmpty

/-- `src/src/job_data.py`, `validate_job_info`: every required field must be
present and truthy. -/
def validate_job_info (j : JobInfo) : Bool :=
  truthy j.job_id && truthy j.title && truthy j.company && truthy j.location &&
    truthy j.job_link

/-- The per-card loop of `main` in `src/main.py`: extract, validate, and
insert each valid candidate in card order.  Returns the ordered list of
`db.insert_job` calls together with the exception, if any, that halted the
loop (writes made before the exception persist). -/
def main_loop (page : Elem) : List Elem → List JobInfo × Option PyError
  | [] => ([], none)
  | card :: rest =>
    match get_job_info page card with
    | .error e => ([], some e)
    | .ok job_info =>
      let tail := main_loop page rest
      if validate_job_info job_info then (job_info :: tail.1, tail.2)
      else tail

/-- A row of the `jobs` table (columns used by the embedded queries). -/
structure Job where
  job_id : String
  company : Option String
  is_applied : Bool
deriving DecidableEq

/-- A row of the `applications` table (columns used by the embedded
queries). -/
structure Application where
  application_id : Nat
  job_id : String
  status : String
  notes : Option String
deriving DecidableEq

/-- `db_helper.py`, `retry_failed_application(application_id)`:
`UPDATE applications SET status = 'pending',
notes = COALESCE(notes || ' | Retry requested', 'Retry requested')
WHERE application_id = ?` — note the `WHERE` clause matches on the id only,
with no condition on the current status.  SQL string concatenation with
`NULL` is `NULL`, so the `COALESCE` yields `'Retry requested'` exactly when
`notes` was `NULL`. -/
def retry_failed_application (apps : List Application) (id : Nat) :
    List Application :=
  apps.map (fun a =>
    if a.application_id = id then
      { a with
        status := "pending"
        notes := some (match a.notes with
          | some n => n ++ " | Retry requested"
          | none => "Retry requested") }
    else a)

/-- Count of applications with a given status
(`SELECT COUNT(*) FROM applications WHERE status = s`). -/
def countStatus (apps : List Application) (s : String) : Nat :=
  (apps.filter (fun a => a.status == s)).length

/-- The date-independent fields of the dict returned by
`get_dashboard_stats` (the `today`/`week`/`last_updated`/`avg_time` entries
depend on the wall clock and are outside this model). -/
structure DashboardStats where
  total_jobs : Nat
  total_applications : Nat
  apps_submitted : Nat
  apps_failed : Nat
  apps_pending : Nat
  success_rate : ℚ
  jobs_not_applied : Nat
deriving DecidableEq

/-- `db_helper.py`, `get_dashboard_stats()`:
`success_rate = (apps_submitted / total_apps * 100) if total_apps > 0 else 0`. -/
def get_dashboard_stats (jobs : List Job) (apps : List Application) :
    DashboardStats :=
  let total_apps := apps.length
  let submitted := countStatus apps "submitted"
  { total_jobs := jobs.length
    total_applications := total_apps
    apps_submitted := submitted
    apps_failed := countStatus apps "failed"
    apps_pending := countStatus apps "pending"
    success_rate :=
      if 0 < total_apps then (submitted : ℚ) / (total_apps : ℚ) * 100 else 0
    jobs_not_applied := (jobs.filter (fun j => !j.is_applied)).length }

/-- SQL `ROUND(x, 2)` for the nonnegative rates appearing here: round half
up to two decimal places. -/
def round2 (q : ℚ) : ℚ := ((round (q * 100) : ℤ) : ℚ) / 100

/-- The company joined onto an application row by
`applications a LEFT JOIN jobs j ON a.job_id = j.job_id` (`job_id` is the
primary key of `jobs`, so the first matching row is the row). -/
def joined_company (jobs : List Job) (a : Application) : Option String :=
  (jobs.find? (fun j => j.job_id == a.job_id)).bind Job.company

/-- The `(company, status)` rows of the join that survive
`WHERE j.company IS NOT NULL`, in `applications` order. -/
def company_rows (jobs : List Job) (apps : List Application) :
    List (String × String) :=
  apps.filterMap (fun a => (joined_company jobs a).map (fun c => (c, a.status)))

/-- One row of the `get_success_rate_by_company` result. -/
structure CompanyRate where
  company : String
  total_applications : Nat
  successful : Nat
  success_rate : ℚ
deriving DecidableEq

/-- The aggregate row `GROUP BY j.company` computes for company `c`:
`COUNT(a.application_id)`, `SUM(status = 'submitted')`, and
`ROUND(SUM(...) / COUNT(...) * 100, 2)`. -/
def rate_entry (rows : List (String × String)) (c : String) : CompanyRate :=
  let g := rows.filter (fun r => r.1 == c)
  let succ := (g.filter (fun r => r.2 == "submitted")).length
  { company := c
    total_applications := g.length
    successful := succ
    success_rate := round2 ((succ : ℚ) / (g.length : ℚ) * 100) }

/-- `db_helper.py`, `get_success_rate_by_company()`: join, drop null
companies, group by company, keep groups with
`HAVING COUNT(a.application_id) >= 3`, `ORDER BY success_rate DESC`,
`LIMIT 20`.  SQL leaves the order of equal-rate groups unspecified; the
model determinizes it with a stable insertion sort over the grouping
order. -/
def get_success_rate_by_company (jobs : List Job) (apps : List Application) :
    List CompanyRate :=
  let rows := company_rows jobs apps
  let entries :=
    ((rows.map Prod.fst).dedup.map (rate_entry rows)).filter
      (fun e => 3 ≤ e.total_applications)
  (entries.insertionSort (fun x y => y.success_rate ≤ x.success_rate)).take 20

/-- Number of application rows that join to company `c`
(the `COUNT(a.application_id)` of `c`'s group). -/
def appCount (jobs : List Job) (apps : List Application) (c : String) : Nat :=
  ((company_rows jobs apps).filter (fun r => r.1 == c)).length

/-- Number of `submitted` application rows that join to company `c`. -/
def submittedCount (jobs : List Job) (apps : List Application) (c : String) : Nat :=
  (((company_rows jobs apps).filter (fun r => r.1 == c)).filter
    (fun r => r.2 == "submitted")).length

/-- The companies `get_success_rate_by_company`'s `HAVING` clause keeps,
one entry per company. -/
def qualifyingCompanies (jobs : List Job) (apps : List Application) :
    List String :=
  ((company_rows jobs apps).map Prod.fst).dedup.filter
    (fun c => decide (3 ≤ appCount jobs apps c))

/-! ### Concrete instances used by witnesses and counterexamples -/

/-- An application already in terminal-success state. -/
def submittedApp : Application :=
  { application_id := 1, job_id := "j1", status := "submitted", notes := none }

/-- A failed application carrying an existing audit note. -/
def failedApp : Application :=
  { application_id := 2, job_id := "j2", status := "failed", notes := some "Attempt 1" }

/-- A store with a single company that has four applications, three of them
submitted (the worked example of the spec). -/
def c75jobs : List Job := [{ job_id := "j", company := some "acme", is_applied := true }]

/-- The four applications of the worked example: three submitted, one failed. -/
def c75apps : List Application :=
  [{ application_id := 0, job_id := "j", status := "submitted", notes := none },
   { application_id := 1, job_id := "j", status := "submitted", notes := none },
   { application_id := 2, job_id := "j", status := "submitted", notes := none },
   { application_id := 3, job_id := "j", status := "failed", notes := none }]

/-! ### Concrete pages and cards -/

/-- An element with no attributes, no text, and no matching selectors. -/
def emptyElem : Elem := .mk [] "" []

/-- A hiring-manager panel that contains no profile link. -/
def hirerNoLink : Elem := .mk [] "Jane Doe" []

/-- A page on which the hiring-manager panel is open but has no link. -/
def pageHirerNoLink : Elem :=
  .mk [] "" [(".hirer-card__hirer-information", [hirerNoLink])]

/-- A fully populated card content wrapper. -/
def goodWrapper : Elem :=
  .mk ["data-job-id", "42"] ""
    [("a", [.mk ["href", "https://j"] "" []]),
     ("strong", [.mk [] "Engineer" []]),
     (".artdeco-entity-lockup__subtitle", [.mk [] "Acme" []]),
     (".artdeco-entity-lockup__caption", [.mk [] "Berlin" []])]

/-- A card whose content wrapper is `goodWrapper`. -/
def goodCard : Elem := .mk [] "" [(".job-card-job-posting-card-wrapper", [goodWrapper])]

/-- A card whose content wrapper exists but is empty: extraction succeeds
with all fields null, and validation must reject the candidate. -/
def invalidCard : Elem :=
  .mk [] "" [(".job-card-job-posting-card-wrapper", [.mk [] "" []])]

/-- A page with an open hiring-manager panel (with link) and two
description paragraphs. -/
def pageFull : Elem :=
  .mk [] ""
    [(".hirer-card__hirer-information",
        [.mk [] "Jane" [("a", [.mk ["href", "https://p"] "" []])]]),
     (".jobs-description__container p", [.mk [] "L1" [], .mk [] "L2" []])]

/-- The candidate `goodCard` extracts against a page with no hirer panel
and no description container. -/
def infoGood : JobInfo :=
  { job_id := some "42", job_link := some "https://j", title := some "Engineer",
    company := some "Acme", location := some "Berlin", hirer_name := none,
    hirer_profile_link := none, description := none }

/-- An element with the flat attribute list `["a","1","b","2","a","3"]`:
the key `"a"` occurs twice, the later pair winning. -/
def eAttrsTest : Elem := .mk ["a", "1", "b", "2", "a", "3"] "" []

/-- An element with an odd-length attribute list. -/
def eOddTest : Elem := .mk ["a", "1", "b"] "" []

/-- Twenty-one jobs at twenty-one distinct companies. -/
def c7jobs : List Job :=
  [{ job_id := "j0", company := some "c0", is_applied := false },
   { job_id := "j1", company := some "c1", is_applied := false },
   { job_id := "j2", company := some "c2", is_applied := false },
   { job_id := "j3", company := some "c3", is_applied := false },
   { job_id := "j4", company := some "c4", is_applied := false },
   { job_id := "j5", company := some "c5", is_applied := false },
   { job_id := "j6", company := some "c6", is_applied := false },
   { job_id := "j7", company := some "c7", is_applied := false },
   { job_id := "j8", company := some "c8", is_applied := false },
   { job_id := "j9", company := some "c9", is_applied := false },
   { job_id := "j10", company := some "c10", is_applied := false },
   { job_id := "j11", company := some "c11", is_applied := false },
   { job_id := "j12", company := some "c12", is_applied := false },
   { job_id := "j13", company := some "c13", is_applied := false },
   { job_id := "j14", company := some "c14", is_applied := false },
   { job_id := "j15", company := some "c15", is_applied := false },
   { job_id := "j16", company := some "c16", is_applied := false },
   { job_id := "j17", company := some "c17", is_applied := false },
   { job_id := "j18", company := some "c18", is_applied := false },
   { job_id := "j19", company := some "c19", is_applied := false },
   { job_id := "j20", company := some "c20", is_applied := false }]

/-- Sixty-three submitted applications: three per company, so all
twenty-one companies qualify for the minimum-three rollup. -/
def c7apps : List Application :=
  [{ application_id := 0, job_id := "j0", status := "submitted", notes := none },
   { application_id := 1, job_id := "j0", status := "submitted", notes := none },
   { application_id := 2, job_id := "j0", status := "submitted", notes := none },
   { application_id := 3, job_id := "j1", status := "submitted", notes := none },
   { application_id := 4, job_id := "j1", status := "submitted", notes := none },
   { application_id := 5, job_id := "j1", status := "submitted", notes := none },
   { application_id := 6, job_id := "j2", status := "submitted", notes := none },
   { application_id := 7, job_id := "j2", status := "submitted", notes := none },
   { application_id := 8, job_id := "j2", status := "submitted", notes := none },
   { application_id := 9, job_id := "j3", status := "submitted", notes := none },
   { application_id := 10, job_id := "j3", status := "submitted", notes := none },
   { application_id := 11, job_id := "j3", status := "submitted", notes := none },
   { application_id := 12, job_id := "j4", status := "submitted", notes := none },
   { application_id := 13, job_id := "j4", status := "submitted", notes := none },
   { application_id := 14, job_id := "j4", status := "submitted", notes := none },
   { application_id := 15, job_id := "j5", status := "submitted", notes := none },
   { application_id := 16, job_id := "j5", status := "submitted", notes := none },
   { application_id := 17, job_id := "j5", status := "submitted", notes := none },
   { application_id := 18, job_id := "j6", status := "submitted", notes := none },
   { application_id := 19, job_id := "j6", status := "submitted", notes := none },
   { application_id := 20, job_id := "j6", status := "submitted", notes := none },
   { application_id := 21, job_id := "j7", status := "submitted", notes := none },
   { application_id := 22, job_id := "j7", status := "submitted", notes := none },
   { application_id := 23, job_id := "j7", status := "submitted", notes := none },
   { application_id := 24, job_id := "j8", status := "submitted", notes := none },
   { application_id := 25, job_id := "j8", status := "submitted", notes := none },
   { application_id := 26, job_id := "j8", status := "submitted", notes := none },
   { application_id := 27, job_id := "j9", status := "submitted", notes := none },
   { application_id := 28, job_id := "j9", status := "submitted", notes := none },
   { application_id := 29, job_id := "j9", status := "submitted", notes := none },
   { application_id := 30, job_id := "j10", status := "submitted", notes := none },
   { application_id := 31, job_id := "j10", status := "submitted", notes := none },
   { application_id := 32, job_id := "j10", status := "submitted", notes := none },
   { application_id := 33, job_id := "j11", status := "submitted", notes := none },
   { application_id := 34, job_id := "j11", status := "submitted", notes := none },
   { application_id := 35, job_id := "j11", status := "submitted", notes := none },
   { application_id := 36, job_id := "j12", status := "submitted", notes := none },
   { application_id := 37, job_id := "j12", status := "submitted", notes := none },
   { application_id := 38, job_id := "j12", status := "submitted", notes := none },
   { application_id := 39, job_id := "j13", status := "submitted", notes := none },
   { application_id := 40, job_id := "j13", status := "submitted", notes := none },
   { application_id := 41, job_id := "j13", status := "submitted", notes := none },
   { application_id := 42, job_id := "j14", status := "submitted", notes := none },
   { application_id := 43, job_id := "j14", status := "submitted", notes := none },
   { application_id := 44, job_id := "j14", status := "submitted", notes := none },
   { application_id := 45, job_id := "j15", status := "submitted", notes := none },
   { application_id := 46, job_id := "j15", status := "submitted", notes := none },
   { application_id := 47, job_id := "j15", status := "submitted", notes := none },
   { application_id := 48, job_id := "j16", status := "submitted", notes := none },
   { application_id := 49, job_id := "j16", status := "submitted", notes := none },
   { application_id := 50, job_id := "j16", status := "submitted", notes := none },
   { application_id := 51, job_id := "j17", status := "submitted", notes := none },
   { application_id := 52, job_id := "j17", status := "submitted", notes := none },
   { application_id := 53, job_id := "j17", status := "submitted", notes := none },
   { application_id := 54, job_id := "j18", status := "submitted", notes := none },
   { application_id := 55, job_id := "j18", status := "submitted", notes := none },
   { application_id := 56, job_id := "j18", status := "submitted", notes := none },
   { application_id := 57, job_id := "j19", status := "submitted", notes := none },
   { application_id := 58, job_id := "j19", status := "submitted", notes := none },
   { application_id := 59, job_id := "j19", status := "submitted", notes := none },
   { application_id := 60, job_id := "j20", status := "submitted", notes := none },
   { application_id := 61, job_id := "j20", status := "submitted", notes := none },
   { application_id := 62, job_id := "j20", status := "submitted", notes := none }]

/-! ### Helper lemmas -/

/-- Truthiness of an optional string, unfolded to a proposition. -/
theorem truthy_eq_true_iff (o : Option String) :
    truthy o = true ↔ ∃ s, o = some s ∧ s ≠ "" := by
  cases o with
  | none => simp [truthy]
  | some s =>
    show (!s.isEmpty) = true ↔ _
    rw [Bool.not_eq_true']
    constructor
    · intro h
      refine ⟨s, rfl, ?_⟩
      intro hs
      subst hs
      exact absurd h (by decide)
    · rintro ⟨t, ht, hne⟩
      cases ht
      cases hs : s.isEmpty with
      | false => rfl
      | true => exact absurd ((String.isEmpty_iff s).mp hs) hne

/-! ### List and dict lemmas -/

theorem getD_append_lt {α : Type} (l l' : List α) (i : Nat) (h : i < l.length) (d : α) :
    (l ++ l').getD i d = l.getD i d := by
  induction l generalizing i with
  | nil => simp at h
  | cons x xs ih =>
    cases i with
    | zero => rfl
    | succ n => simpa using ih n (by simpa using h)

theorem getD_concat_length {α : Type} (l : List α) (a d : α) :
    (l ++ [a]).getD l.length d = a := by
  induction l with
  | nil => rfl
  | cons x xs ih =>
    simp only [List.cons_append, List.length_cons, List.getD_cons_succ]
    exact ih

theorem getD_mem_of_lt {α : Type} (l : List α) (i : Nat) (h : i < l.length) (d : α) :
    l.getD i d ∈ l := by
  induction l generalizing i with
  | nil => simp at h
  | cons x xs ih =>
    cases i with
    | zero => exact List.mem_cons_self x xs
    | succ n => exact List.mem_cons_of_mem x (ih n (by simpa using h))

theorem pyDict_append (ps : List (String × String)) (p : String × String) (k : String) :
    pyDict (ps ++ [p]) k = if p.1 = k then some p.2 else pyDict ps k := by
  simp [pyDict, List.foldl_append]

theorem pyDict_last (ps : List (String × String)) (k : String)
    (hk : k ∈ ps.map Prod.fst) :
    ∃ j, j < ps.length ∧ (ps.getD j ("", "")).1 = k ∧
      (∀ l, l < ps.length → (ps.getD l ("", "")).1 = k → l ≤ j) ∧
      pyDict ps k = some (ps.getD j ("", "")).2 := by
  induction ps using List.reverseRecOn with
  | nil => simp at hk
  | append_singleton ps p ih =>
    by_cases hp : p.1 = k
    · refine ⟨ps.length, by simp, ?_, ?_, ?_⟩
      · rw [getD_concat_length]
        exact hp
      · intro l hl hlk
        simp at hl
        omega
      · rw [pyDict_append, if_pos hp, getD_concat_length]
    · have hk' : k ∈ ps.map Prod.fst := by
        rcases List.mem_map.mp hk with ⟨q, hq, hqk⟩
        rcases List.mem_append.mp hq with hq1 | hq2
        · exact List.mem_map.mpr ⟨q, hq1, hqk⟩
        · simp at hq2
          subst hq2
          exact absurd hqk hp
      obtain ⟨j, hj, hjk, hmax, hpd⟩ := ih hk'
      refine ⟨j, ?_, ?_, ?_, ?_⟩
      · simp
        omega
      · rw [getD_append_lt ps [p] j hj]
        exact hjk
      · intro l hl hlk
        simp at hl
        rcases Nat.lt_or_ge l ps.length with hlt | hge
        · exact hmax l hlt (by rwa [getD_append_lt ps [p] l hlt] at hlk)
        · have hleq : l = ps.length := by omega
          subst hleq
          rw [getD_concat_length] at hlk
          exact absurd hlk hp
      · rw [pyDict_append, if_neg hp, hpd, getD_append_lt ps [p] j hj]

theorem toPairs_length_even : ∀ (l : List String) (n : Nat), l.length = 2 * n →
    (toPairs l).length = n
  | [], n, h => by
    simp only [List.length_nil] at h
    simp [toPairs]
    omega
  | [_], n, h => by
    simp only [List.length_singleton] at h
    omega
  | _ :: _ :: rest, n, h => by
    cases n with
    | zero => simp at h
    | succ m =>
      have ih := toPairs_length_even rest m (by simp at h; omega)
      simp [toPairs, ih]

theorem toPairs_getD_even : ∀ (l : List String) (n : Nat), l.length = 2 * n →
    ∀ i, i < n →
      (toPairs l).getD i ("", "") = (l.getD (2 * i) "", l.getD (2 * i + 1) "")
  | [], n, h, i, hi => by
    simp only [List.length_nil] at h
    omega
  | [_], n, h, i, hi => by
    simp only [List.length_singleton] at h
    omega
  | a :: b :: rest, n, h, 0, hi => rfl
  | a :: b :: rest, n, h, i + 1, hi => by
    cases n with
    | zero => omega
    | succ m =>
      have ih := toPairs_getD_even rest m (by simp at h; omega) i (by omega)
      have h2 : 2 * (i + 1) = 2 * i + 2 := by omega
      have h3 : 2 * (i + 1) + 1 = 2 * i + 1 + 2 := by omega
      simp only [toPairs, List.getD_cons_succ, h2, h3]
      exact ih

/-- The filtered aggregate entries are exactly the qualifying companies'
entries. -/
theorem entries_eq_map (jobs : List Job) (apps : List Application) :
    (((company_rows jobs apps).map Prod.fst).dedup.map
        (rate_entry (company_rows jobs apps))).filter
          (fun e => decide (3 ≤ e.total_applications)) =
      (qualifyingCompanies jobs apps).map (rate_entry (company_rows jobs apps)) := by
  rw [List.filter_map]
  rfl

/-- The rollup's row count is the qualifying-company count capped at 20. -/
theorem get_success_rate_length (jobs : List Job) (apps : List Application) :
    (get_success_rate_by_company jobs apps).length =
      min 20 (qualifyingCompanies jobs apps).length := by
  show (List.take 20 _).length = _
  rw [List.length_take, (List.perm_insertionSort _ _).length_eq, entries_eq_map,
    List.length_map]

/-! ### C3 — Validator -/

/-- C3: `validate_job_info` returns true iff each of the five required
fields `job_id, title, company, location, job_link` is present and
non-empty, and its result depends on those five fields only (so never on
`hirer_name`, `hirer_profile_link`, `description`). -/
theorem validate_job_info_spec :
    (∀ j : JobInfo, validate_job_info j = true ↔
      ((∃ s, j.job_id = some s ∧ s ≠ "") ∧ (∃ s, j.title = some s ∧ s ≠ "") ∧
        (∃ s, j.company = some s ∧ s ≠ "") ∧ (∃ s, j.location = some s ∧ s ≠ "") ∧
        (∃ s, j.job_link = some s ∧ s ≠ ""))) ∧
    (∀ j j' : JobInfo, j.job_id = j'.job_id → j.title = j'.title →
      j.company = j'.company → j.location = j'.location → j.job_link = j'.job_link →
      validate_job_info j = validate_job_info j') := by
  constructor
  · intro j
    simp [validate_job_info, truthy_eq_true_iff, and_assoc]
  · intro j j' h1 h2 h3 h4 h5
    simp only [validate_job_info, h1, h2, h3, h4, h5]

/-- Witness for C3: a fully populated candidate validates; a candidate
differing only in the optional fields validates identically. -/
theorem validate_job_info_spec_witness :
    validate_job_info
        { job_id := some "42", job_link := some "https://j", title := some "T",
          company := some "C", location := some "L", hirer_name := none,
          hirer_profile_link := none, description := none } = true ∧
    validate_job_info
        { job_id := some "42", job_link := some "https://j", title := some "T",
          company := some "C", location := some "L", hirer_name := none,
          hirer_profile_link := none, description := none } =
      validate_job_info
        { job_id := some "42", job_link := some "https://j", title := some "T",
          company := some "C", location := some "L", hirer_name := some "H",
          hirer_profile_link := some "https://p", description := some "D" } :=
  ⟨(validate_job_info_spec.1 _).mpr
      ⟨⟨"42", rfl, by decide⟩, ⟨"T", rfl, by decide⟩, ⟨"C", rfl, by decide⟩,
        ⟨"L", rfl, by decide⟩, ⟨"https://j", rfl, by decide⟩⟩,
    validate_job_info_spec.2 _ _ rfl rfl rfl rfl rfl⟩

/-! ### C9 — dashboard success rate -/

/-- C9: the dashboard statistics never divide by zero — with no
applications the success rate is exactly `0`, and otherwise it is `100`
times the submitted count divided by the total count. -/
theorem get_dashboard_stats_success_rate (jobs : List Job) (apps : List Application) :
    (apps.length = 0 → (get_dashboard_stats jobs apps).success_rate = 0) ∧
    (0 < apps.length →
      (get_dashboard_stats jobs apps).success_rate =
        100 * (countStatus apps "submitted" : ℚ) / (apps.length : ℚ)) := by
  constructor
  · intro h
    simp [get_dashboard_stats, h]
  · intro h
    simp only [get_dashboard_stats, if_pos h]
    ring

/-- Witness for C9: zero applications report rate `0`; the four-application
store with three submissions reports `100 * 3 / 4`. -/
theorem get_dashboard_stats_success_rate_witness :
    (get_dashboard_stats ([] : List Job) ([] : List Application)).success_rate = 0 ∧
    (get_dashboard_stats c75jobs c75apps).success_rate = 100 * (3 : ℚ) / 4 := by
  constructor
  · exact (get_dashboard_stats_success_rate [] []).1 rfl
  · have h := (get_dashboard_stats_success_rate c75jobs c75apps).2 (by decide)
    have hc : countStatus c75apps "submitted" = 3 := rfl
    have hl : c75apps.length = 4 := rfl
    rw [h, hc, hl]
    norm_num

/-! ### C1 — retry is not a no-op on non-failed applications -/

/-- Counterexample to C1: retrying an application in state `submitted`
changes it — the `UPDATE` has no `status = 'failed'` condition, so the
status becomes `pending` and a note is appended. -/
theorem retry_changes_submitted_application :
    submittedApp.status = "submitted" ∧
    retry_failed_application [submittedApp] 1 ≠ [submittedApp] ∧
    (retry_failed_application [submittedApp] 1).map Application.status = ["pending"] := by
  decide

/-- C1 (amended): calling retry on an application of any status — not only
`failed` — sets its status to `pending` and appends the audit note; only
applications whose id differs from the target are left unchanged.  In
particular retry does move an application out of state `submitted`. -/
theorem retry_pends_matching_application (apps : List Application) (id : Nat)
    (a : Application) (ha : a ∈ apps) :
    (a.application_id ≠ id → a ∈ retry_failed_application apps id) ∧
    (a.application_id = id →
      { a with status := "pending",
               notes := some (match a.notes with
                 | some n => n ++ " | Retry requested"
                 | none => "Retry requested") } ∈ retry_failed_application apps id) := by
  constructor
  · intro hne
    exact List.mem_map.mpr ⟨a, ha, by simp [hne]⟩
  · intro heq
    exact List.mem_map.mpr ⟨a, ha, by simp [heq]⟩

/-- Witness for the amended C1: retry at the submitted application's own id
rewrites it to `pending`, while retry at a different id leaves it in the
result untouched. -/
theorem retry_pends_matching_application_witness :
    ({ submittedApp with status := "pending", notes := some "Retry requested" } ∈
      retry_failed_application [submittedApp] 1) ∧
    submittedApp ∈ retry_failed_application [submittedApp] 99 :=
  ⟨(retry_pends_matching_application [submittedApp] 1 submittedApp
      (List.mem_singleton.mpr rfl)).2 rfl,
    (retry_pends_matching_application [submittedApp] 99 submittedApp
      (List.mem_singleton.mpr rfl)).1 (by decide)⟩

/-! ### C5 — retry on a failed application -/

/-- C5: retrying an application in state `failed` transitions it to
`pending` and appends the `"Retry requested"` audit note to the existing
notes rather than overwriting them; when the notes were null they become
exactly `"Retry requested"`. -/
theorem retry_failed_to_pending (apps : List Application) (id : Nat)
    (a : Application) (ha : a ∈ apps) (hid : a.application_id = id)
    (_hst : a.status = "failed") :
    ({ a with status := "pending",
              notes := some (match a.notes with
                | some n => n ++ " | Retry requested"
                | none => "Retry requested") } ∈ retry_failed_application apps id) ∧
    (∀ n, a.notes = some n →
      { a with status := "pending", notes := some (n ++ " | Retry requested") } ∈
        retry_failed_application apps id) ∧
    (a.notes = none →
      { a with status := "pending", notes := some "Retry requested" } ∈
        retry_failed_application apps id) := by
  refine ⟨List.mem_map.mpr ⟨a, ha, by simp [hid]⟩, ?_, ?_⟩
  · intro n hn
    refine List.mem_map.mpr ⟨a, ha, ?_⟩
    simp [hid, hn]
  · intro hn
    refine List.mem_map.mpr ⟨a, ha, ?_⟩
    simp [hid, hn]

/-- Witness for C5: the failed application with an existing note gains the
appended audit note and moves to `pending`. -/
theorem retry_failed_to_pending_witness :
    { failedApp with status := "pending",
                     notes := some "Attempt 1 | Retry requested" } ∈
      retry_failed_application [failedApp] 2 :=
  (retry_failed_to_pending [failedApp] 2 failedApp
      (List.mem_singleton.mpr rfl) rfl rfl).2.1 "Attempt 1" rfl

/-! ### C4 — listing-URL construction -/

/-- Boolean emptiness from propositional non-emptiness of a string. -/
theorem isEmpty_eq_false_of_ne (g : String) (hg : g ≠ "") : g.isEmpty = false := by
  cases hs : g.isEmpty with
  | false => rfl
  | true => exact absurd ((String.isEmpty_iff g).mp hs) hg

/-- C4: `make_linkedin_url` is a pure function of its four arguments whose
output is pinned exactly: with neither option it is
`base ++ "?keywords=" ++ urlencoded(keyword)` (so the example call yields
`"https://x.test/search?keywords=engineer"`); a provided (non-empty)
`geo_id` contributes exactly one `geoId=` parameter and `easy_apply = true`
contributes exactly one `f_AL=true` parameter, while absent options
contribute nothing. -/
theorem make_linkedin_url_spec :
    (∀ base kw, make_linkedin_url base kw none false =
      base ++ "?keywords=" ++ quote_plus kw) ∧
    (make_linkedin_url "https://x.test/search" "engineer" none false =
      "https://x.test/search?keywords=engineer") ∧
    (∀ base kw, make_linkedin_url base kw none true =
      base ++ "?keywords=" ++ quote_plus kw ++ "&f_AL=true") ∧
    (∀ base kw g, g ≠ "" → make_linkedin_url base kw (some g) false =
      base ++ "?keywords=" ++ quote_plus kw ++ "&geoId=" ++ quote_plus g) ∧
    (∀ base kw g, g ≠ "" → make_linkedin_url base kw (some g) true =
      base ++ "?keywords=" ++ quote_plus kw ++ "&geoId=" ++ quote_plus g ++
        "&f_AL=true") := by
  refine ⟨?_, ?_, ?_, ?_, ?_⟩
  · intro base kw
    simp only [make_linkedin_url, String.append_assoc]
    rfl
  · rfl
  · intro base kw
    simp only [make_linkedin_url, if_true, List.cons_append, List.nil_append]
    rw [show urlencode [("keywords", kw), ("f_AL", "true")] =
        quote_plus "keywords" ++ "=" ++ quote_plus kw ++ "&" ++
          (quote_plus "f_AL" ++ "=" ++ quote_plus "true") from rfl]
    simp only [String.append_assoc]
    rfl
  · intro base kw g hg
    simp [make_linkedin_url, isEmpty_eq_false_of_ne g hg]
    rw [show urlencode [("keywords", kw), ("geoId", g)] =
        quote_plus "keywords" ++ "=" ++ quote_plus kw ++ "&" ++
          (quote_plus "geoId" ++ "=" ++ quote_plus g) from rfl]
    simp only [String.append_assoc]
    rfl
  · intro base kw g hg
    simp [make_linkedin_url, isEmpty_eq_false_of_ne g hg]
    rw [show urlencode [("keywords", kw), ("geoId", g), ("f_AL", "true")] =
        quote_plus "keywords" ++ "=" ++ quote_plus kw ++ "&" ++
          (quote_plus "geoId" ++ "=" ++ quote_plus g) ++ "&" ++
          (quote_plus "f_AL" ++ "=" ++ quote_plus "true") from rfl]
    simp only [String.append_assoc]
    rfl

/-- Witness for C4: the spec's second example call, with `geo_id = "123"`
and the easy-apply flag set, produces all three parameters exactly once. -/
theorem make_linkedin_url_spec_witness :
    ("123" : String) ≠ "" ∧
    make_linkedin_url "https://x.test/search" "engineer" (some "123") true =
      "https://x.test/search" ++ "?keywords=" ++ quote_plus "engineer" ++
        "&geoId=" ++ quote_plus "123" ++ "&f_AL=true" :=
  ⟨by decide,
    make_linkedin_url_spec.2.2.2.2 "https://x.test/search" "engineer" "123"
      (by decide)⟩

/-! ### C2 — extractor totality -/

/-- Counterexample to C2: the extractor does raise.  A card without the
content wrapper hits `get_attributes(None)` and raises `AttributeError`,
and a page whose hiring-manager panel has no profile link hits
`get_attributes(None)` on the missing link. -/
theorem get_job_info_raises_on_missing_elements :
    get_job_info emptyElem emptyElem = .error .attributeError ∧
    get_job_info pageHirerNoLink goodCard = .error .attributeError :=
  ⟨rfl, rfl⟩

/-- C2 (amended): whenever the card does have a content wrapper (with a
well-formed attribute list, as the browser engine guarantees) and any open
hiring-manager panel does have a profile link, the extractor returns a
fully shaped eight-field record and resolves each missing optional
sub-element — link, title, company, location, hirer panel, description — to
a null field; a missing wrapper or a hirer panel without a link instead
raises `AttributeError`. -/
theorem get_job_info_ok_of_guarded (page card : Elem) (w : Elem)
    (hw : card.query_selector ".job-card-job-posting-card-wrapper" = some w)
    (hwa : w.attributes.length % 2 = 0)
    (hlink : ∀ jl, w.query_selector "a" = some jl → jl.attributes.length % 2 = 0)
    (hhirer : ∀ hi, page.query_selector ".hirer-card__hirer-information" = some hi →
      ∃ a, hi.query_selector "a" = some a ∧ a.attributes.length % 2 = 0) :
    ∃ info, get_job_info page card = .ok info ∧
      (w.query_selector "a" = none → info.job_link = none) ∧
      (w.query_selector "strong" = none → info.title = none) ∧
      (∀ t, w.query_selector "strong" = some t → info.title = some t.text) ∧
      (w.query_selector ".artdeco-entity-lockup__subtitle" = none → info.company = none) ∧
      (w.query_selector ".artdeco-entity-lockup__caption" = none → info.location = none) ∧
      (page.query_selector ".hirer-card__hirer-information" = none →
        info.hirer_name = none ∧ info.hirer_profile_link = none) ∧
      (page.query_selector_all ".jobs-description__container p" = [] →
        info.description = none) := by
  have hga : get_attributes (some w) = .ok (toPairs w.attributes) := by
    simp [get_attributes, hwa]
  have hlh : ∃ jlv, link_href w = .ok jlv ∧
      (w.query_selector "a" = none → jlv = none) := by
    cases hx : w.query_selector "a" with
    | none => exact ⟨none, by simp [link_href, hx], fun _ => rfl⟩
    | some jl =>
      refine ⟨pyDict (toPairs jl.attributes) "href", ?_, ?_⟩
      · simp [link_href, hx, get_attributes, hlink jl hx, Except.map]
      · intro h
        exact absurd h (Option.some_ne_none jl)
  have hhf : ∃ hv, hirer_fields page = .ok hv ∧
      (page.query_selector ".hirer-card__hirer-information" = none →
        hv = (none, none)) := by
    cases hy : page.query_selector ".hirer-card__hirer-information" with
    | none => exact ⟨(none, none), by simp [hirer_fields, hy], fun _ => rfl⟩
    | some hi =>
      obtain ⟨a, ha, haeven⟩ := hhirer hi hy
      refine ⟨(some hi.text, pyDict (toPairs a.attributes) "href"), ?_, ?_⟩
      · simp [hirer_fields, hy, ha, get_attributes, haeven, Except.map]
      · intro h
        exact absurd h (Option.some_ne_none hi)
  obtain ⟨jlv, hjl, hjlnone⟩ := hlh
  obtain ⟨hv, hhv, hhvnone⟩ := hhf
  refine ⟨{ job_id := pyDict (toPairs w.attributes) "data-job-id",
            job_link := jlv,
            title := (w.query_selector "strong").map Elem.text,
            company := (w.query_selector ".artdeco-entity-lockup__subtitle").map Elem.text,
            location := (w.query_selector ".artdeco-entity-lockup__caption").map Elem.text,
            hirer_name := hv.1,
            hirer_profile_link := hv.2,
            description := description_of page }, ?_, ?_, ?_, ?_, ?_, ?_, ?_, ?_⟩
  · simp [get_job_info, hw, hga, hjl, hhv]
  · exact hjlnone
  · intro h
    simp [h]
  · intro t h
    simp [h]
  · intro h
    simp [h]
  · intro h
    simp [h]
  · intro h
    rw [hhvnone h]
    exact ⟨rfl, rfl⟩
  · intro h
    simp [description_of, h]

/-- Witness for the amended C2: against a page with neither hirer panel
nor description container, the good card extracts to a record whose
optional page-level fields are null. -/
theorem get_job_info_ok_of_guarded_witness :
    ∃ info, get_job_info emptyElem goodCard = .ok info ∧
      (goodWrapper.query_selector "a" = none → info.job_link = none) ∧
      (goodWrapper.query_selector "strong" = none → info.title = none) ∧
      (∀ t, goodWrapper.query_selector "strong" = some t → info.title = some t.text) ∧
      (goodWrapper.query_selector ".artdeco-entity-lockup__subtitle" = none → info.company = none) ∧
      (goodWrapper.query_selector ".artdeco-entity-lockup__caption" = none → info.location = none) ∧
      (emptyElem.query_selector ".hirer-card__hirer-information" = none →
        info.hirer_name = none ∧ info.hirer_profile_link = none) ∧
      (emptyElem.query_selector_all ".jobs-description__container p" = [] →
        info.description = none) :=
  get_job_info_ok_of_guarded emptyElem goodCard goodWrapper rfl rfl
    (fun jl h => by cases h; rfl)
    (fun hi h => nomatch h)

/-! ### C8 — description assembly -/

/-- C8: under the same guards that keep the extractor from raising, the
returned record's `description` is the newline-join of the texts of all
paragraph elements of the page's description container, and is null when
that query yields no paragraphs. -/
theorem get_job_info_description_spec (page card : Elem) (w : Elem)
    (hw : card.query_selector ".job-card-job-posting-card-wrapper" = some w)
    (hwa : w.attributes.length % 2 = 0)
    (hlink : ∀ jl, w.query_selector "a" = some jl → jl.attributes.length % 2 = 0)
    (hhirer : ∀ hi, page.query_selector ".hirer-card__hirer-information" = some hi →
      ∃ a, hi.query_selector "a" = some a ∧ a.attributes.length % 2 = 0) :
    ∃ info, get_job_info page card = .ok info ∧
      info.description =
        (if (page.query_selector_all ".jobs-description__container p").isEmpty then none
         else some (String.intercalate "\n"
           ((page.query_selector_all ".jobs-description__container p").map Elem.text))) := by
  have hga : get_attributes (some w) = .ok (toPairs w.attributes) := by
    simp [get_attributes, hwa]
  have hlh : ∃ jlv, link_href w = .ok jlv := by
    cases hx : w.query_selector "a" with
    | none => exact ⟨none, by simp [link_href, hx]⟩
    | some jl =>
      exact ⟨pyDict (toPairs jl.attributes) "href",
        by simp [link_href, hx, get_attributes, hlink jl hx, Except.map]⟩
  have hhf : ∃ hv, hirer_fields page = .ok hv := by
    cases hy : page.query_selector ".hirer-card__hirer-information" with
    | none => exact ⟨(none, none), by simp [hirer_fields, hy]⟩
    | some hi =>
      obtain ⟨a, ha, haeven⟩ := hhirer hi hy
      exact ⟨(some hi.text, pyDict (toPairs a.attributes) "href"),
        by simp [hirer_fields, hy, ha, get_attributes, haeven, Except.map]⟩
  obtain ⟨jlv, hjl⟩ := hlh
  obtain ⟨hv, hhv⟩ := hhf
  refine ⟨{ job_id := pyDict (toPairs w.attributes) "data-job-id",
            job_link := jlv,
            title := (w.query_selector "strong").map Elem.text,
            company := (w.query_selector ".artdeco-entity-lockup__subtitle").map Elem.text,
            location := (w.query_selector ".artdeco-entity-lockup__caption").map Elem.text,
            hirer_name := hv.1,
            hirer_profile_link := hv.2,
            description := description_of page },
    by simp [get_job_info, hw, hga, hjl, hhv], ?_⟩
  show description_of page = _
  cases hd : page.query_selector_all ".jobs-description__container p" with
  | nil => simp [description_of, hd]
  | cons d ds => simp [description_of, hd]

/-- Witness for C8: on a page with two paragraphs the description is their
newline-join. -/
theorem get_job_info_description_spec_witness :
    ∃ info, get_job_info pageFull goodCard = .ok info ∧
      info.description =
        (if (pageFull.query_selector_all ".jobs-description__container p").isEmpty then none
         else some (String.intercalate "\n"
           ((pageFull.query_selector_all ".jobs-description__container p").map Elem.text))) :=
  get_job_info_description_spec pageFull goodCard goodWrapper rfl rfl
    (fun jl h => by cases h; rfl)
    (fun hi h => by cases h; exact ⟨_, rfl, rfl⟩)

/-! ### C6 — the crawl loop -/

/-- C6: in one run over an ordered card sequence on which extraction
succeeds, the store writes are exactly the extracted candidates that pass
validation, in card order — one write per valid card, no write for an
invalid card — and the loop is never halted by a validation failure. -/
theorem main_loop_spec (page : Elem) (cards : List Elem)
    (hok : ∀ c ∈ cards, ∃ i, get_job_info page c = .ok i) :
    main_loop page cards =
      ((cards.filterMap (fun c => (get_job_info page c).toOption)).filter
        validate_job_info, none) := by
  induction cards with
  | nil => rfl
  | cons card rest ih =>
    obtain ⟨i, hi⟩ := hok card (List.mem_cons_self card rest)
    have ih2 := ih (fun c hc => hok c (List.mem_cons_of_mem card hc))
    by_cases hvv : validate_job_info i
    · simp [main_loop, hi, ih2, Except.toOption, hvv]
    · simp [main_loop, hi, ih2, Except.toOption, hvv]

/-- Witness for C6: of two cards, the first valid and the second failing
validation, exactly the first is written and the loop completes. -/
theorem main_loop_spec_witness :
    main_loop emptyElem [goodCard, invalidCard] = ([infoGood], none) :=
  (main_loop_spec emptyElem [goodCard, invalidCard]
    (by
      intro c hc
      rcases List.mem_cons.mp hc with rfl | hc2
      · exact ⟨_, rfl⟩
      rcases List.mem_cons.mp hc2 with rfl | hc3
      · exact ⟨_, rfl⟩
      · cases hc3)).trans (by rfl)

/-! ### C10 — attribute-list parsing -/

/-- C10: on an element whose flat attribute list has even length `2 * n`,
`get_attributes` returns the mapping that sends `attributes[2*i]` to
`attributes[2*i+1]` for each `i < n`, a later pair overriding an earlier
one with the same name (the dict lookup returns the value of the last
matching pair); on an odd-length attribute list it raises `IndexError`
instead of returning a mapping. -/
theorem get_attributes_spec :
    (∀ (e : Elem) (n : Nat), e.attributes.length = 2 * n →
      ∃ ps, get_attributes (some e) = .ok ps ∧ ps.length = n ∧
        (∀ i, i < n →
          ps.getD i ("", "") =
            (e.attributes.getD (2 * i) "", e.attributes.getD (2 * i + 1) "")) ∧
        (∀ i, i < n → ∃ j, i ≤ j ∧ j < n ∧
          e.attributes.getD (2 * j) "" = e.attributes.getD (2 * i) "" ∧
          (∀ l, l < n → e.attributes.getD (2 * l) "" = e.attributes.getD (2 * i) "" → l ≤ j) ∧
          pyDict ps (e.attributes.getD (2 * i) "") =
            some (e.attributes.getD (2 * j + 1) ""))) ∧
    (∀ e : Elem, e.attributes.length % 2 = 1 →
      get_attributes (some e) = .error .indexError) := by
  constructor
  · intro e n h
    have heven : e.attributes.length % 2 = 0 := by omega
    refine ⟨toPairs e.attributes, by simp [get_attributes, heven],
      toPairs_length_even _ n h, fun i hi => toPairs_getD_even _ n h i hi, ?_⟩
    intro i hi
    have hlen : (toPairs e.attributes).length = n := toPairs_length_even _ n h
    have hgi := toPairs_getD_even _ n h i hi
    have hmem : (toPairs e.attributes).getD i ("", "") ∈ toPairs e.attributes :=
      getD_mem_of_lt _ i (by omega) _
    have hkmem : e.attributes.getD (2 * i) "" ∈ (toPairs e.attributes).map Prod.fst := by
      refine List.mem_map.mpr ⟨(toPairs e.attributes).getD i ("", ""), hmem, ?_⟩
      rw [hgi]
    obtain ⟨j, hj, hjk, hmax, hpd⟩ := pyDict_last (toPairs e.attributes) _ hkmem
    have hgj := toPairs_getD_even _ n h j (by omega)
    refine ⟨j, ?_, by omega, ?_, ?_, ?_⟩
    · exact hmax i (by omega) (by rw [hgi])
    · rw [hgj] at hjk
      exact hjk
    · intro l hl hlk
      exact hmax l (by omega) (by rw [toPairs_getD_even _ n h l hl]; exact hlk)
    · rw [hpd, hgj]
  · intro e hodd
    have hne : ¬ (e.attributes.length % 2 = 0) := by omega
    simp [get_attributes, hne]

theorem get_attributes_spec_witness :
    (∃ ps, get_attributes (some eAttrsTest) = .ok ps ∧ ps.length = 3 ∧
        (∀ i, i < 3 →
          ps.getD i ("", "") =
            (eAttrsTest.attributes.getD (2 * i) "", eAttrsTest.attributes.getD (2 * i + 1) "")) ∧
        (∀ i, i < 3 → ∃ j, i ≤ j ∧ j < 3 ∧
          eAttrsTest.attributes.getD (2 * j) "" = eAttrsTest.attributes.getD (2 * i) "" ∧
          (∀ l, l < 3 → eAttrsTest.attributes.getD (2 * l) "" = eAttrsTest.attributes.getD (2 * i) "" → l ≤ j) ∧
          pyDict ps (eAttrsTest.attributes.getD (2 * i) "") =
            some (eAttrsTest.attributes.getD (2 * j + 1) ""))) ∧
    get_attributes (some eOddTest) = .error .indexError :=
  ⟨get_attributes_spec.1 eAttrsTest 3 (by decide),
    get_attributes_spec.2 eOddTest (by decide)⟩

/-! ### C7 — per-company success-rate rollup -/

/-- Counterexample to C7: with twenty-one companies of three applications
each, all twenty-one qualify for the minimum-three rollup but the query's
`LIMIT 20` returns only twenty rows, so some company with at least three
applications is not included. -/
theorem success_rate_rollup_misses_company :
    (qualifyingCompanies c7jobs c7apps).length = 21 ∧
    (get_success_rate_by_company c7jobs c7apps).length = 20 ∧
    ¬ (∀ c, 3 ≤ appCount c7jobs c7apps c →
        ∃ r ∈ get_success_rate_by_company c7jobs c7apps, r.company = c) := by
  have hq : (qualifyingCompanies c7jobs c7apps).length = 21 := by decide
  have hlen : (get_success_rate_by_company c7jobs c7apps).length = 20 := by
    rw [get_success_rate_length, hq]
    norm_num
  refine ⟨hq, hlen, ?_⟩
  intro hall
  have hnodup : (qualifyingCompanies c7jobs c7apps).Nodup :=
    (List.nodup_dedup _).filter _
  have hsub : (qualifyingCompanies c7jobs c7apps).toFinset ⊆
      ((get_success_rate_by_company c7jobs c7apps).map CompanyRate.company).toFinset := by
    intro c hc
    rw [List.mem_toFinset] at hc
    rw [List.mem_toFinset]
    have hc3 : 3 ≤ appCount c7jobs c7apps c :=
      of_decide_eq_true (List.mem_filter.mp hc).2
    obtain ⟨r, hr, hrc⟩ := hall c hc3
    exact List.mem_map.mpr ⟨r, hr, hrc⟩
  have hcard := Finset.card_le_card hsub
  rw [List.toFinset_card_of_nodup hnodup, hq] at hcard
  have hle := le_trans hcard
    (List.toFinset_card_le
      (List.map CompanyRate.company (get_success_rate_by_company c7jobs c7apps)))
  rw [List.length_map, hlen] at hle
  omega

/-- C7 (amended): every returned row belongs to a company with at least 3
joined applications (so a company with 0 applications never appears) and
carries `success_rate = ROUND(100 * submitted / total, 2)`; and whenever at
most 20 companies qualify, every qualifying company appears.  When more
than 20 qualify, only the 20 with the highest rates are returned
(`ORDER BY success_rate DESC LIMIT 20`). -/
theorem get_success_rate_by_company_spec (jobs : List Job) (apps : List Application) :
    (∀ r ∈ get_success_rate_by_company jobs apps,
      3 ≤ appCount jobs apps r.company ∧
      r.total_applications = appCount jobs apps r.company ∧
      r.successful = submittedCount jobs apps r.company ∧
      r.success_rate =
        round2 (100 * (submittedCount jobs apps r.company : ℚ) /
          (appCount jobs apps r.company : ℚ))) ∧
    ((qualifyingCompanies jobs apps).length ≤ 20 →
      ∀ c, 3 ≤ appCount jobs apps c →
        ∃ r ∈ get_success_rate_by_company jobs apps, r.company = c) := by
  have hent := entries_eq_map jobs apps
  constructor
  · intro r hr
    have h1 : r ∈ (((company_rows jobs apps).map Prod.fst).dedup.map
        (rate_entry (company_rows jobs apps))).filter
          (fun e => decide (3 ≤ e.total_applications)) :=
      (List.perm_insertionSort _ _).mem_iff.mp (List.take_subset 20 _ hr)
    have h2 := List.mem_filter.mp h1
    obtain ⟨c, -, hceq⟩ := List.mem_map.mp h2.1
    have hpred : 3 ≤ r.total_applications := of_decide_eq_true h2.2
    subst hceq
    refine ⟨hpred, rfl, rfl, ?_⟩
    rw [show (rate_entry (company_rows jobs apps) c).company = c from rfl]
    show round2 ((submittedCount jobs apps c : ℚ) / (appCount jobs apps c : ℚ) * 100) =
      round2 (100 * (submittedCount jobs apps c : ℚ) / (appCount jobs apps c : ℚ))
    congr 1
    ring
  · intro hlen c hc
    have hpos : 0 < ((company_rows jobs apps).filter (fun r => r.1 == c)).length := by
      have h3 : 0 < appCount jobs apps c := by omega
      exact h3
    obtain ⟨x, hx⟩ := List.exists_mem_of_length_pos hpos
    have hx2 := List.mem_filter.mp hx
    have hxc : x.1 = c := eq_of_beq hx2.2
    have hex : c ∈ (company_rows jobs apps).map Prod.fst :=
      List.mem_map.mpr ⟨x, hx2.1, hxc⟩
    have hdedup : c ∈ ((company_rows jobs apps).map Prod.fst).dedup :=
      List.mem_dedup.mpr hex
    have hqc : c ∈ qualifyingCompanies jobs apps :=
      List.mem_filter.mpr ⟨hdedup, decide_eq_true hc⟩
    have hmem : rate_entry (company_rows jobs apps) c ∈
        (((company_rows jobs apps).map Prod.fst).dedup.map
          (rate_entry (company_rows jobs apps))).filter
            (fun e => decide (3 ≤ e.total_applications)) := by
      rw [hent]
      exact List.mem_map.mpr ⟨c, hqc, rfl⟩
    have hlen2 : ((((company_rows jobs apps).map Prod.fst).dedup.map
        (rate_entry (company_rows jobs apps))).filter
          (fun e => decide (3 ≤ e.total_applications))).length ≤ 20 := by
      rw [hent, List.length_map]
      exact hlen
    refine ⟨rate_entry (company_rows jobs apps) c, ?_, rfl⟩
    show rate_entry (company_rows jobs apps) c ∈
      List.take 20 ((((((company_rows jobs apps).map Prod.fst).dedup.map
        (rate_entry (company_rows jobs apps))).filter
          (fun e => decide (3 ≤ e.total_applications))).insertionSort
            (fun x y => y.success_rate ≤ x.success_rate)))
    rw [List.take_of_length_le (by
      rw [(List.perm_insertionSort _ _).length_eq]
      exact hlen2)]
    exact (List.perm_insertionSort _ _).mem_iff.mpr hmem


/-- Witness for the amended C7: the spec's worked example — one company
with 4 applications, 3 submitted and 1 failed — appears in the rollup with
`success_rate = 75`. -/
theorem get_success_rate_by_company_spec_witness :
    ∃ r ∈ get_success_rate_by_company c75jobs c75apps, r.company = "acme" ∧
      r.total_applications = 4 ∧ r.successful = 3 ∧ r.success_rate = 75 := by
  obtain ⟨r, hr, hrc⟩ :=
    (get_success_rate_by_company_spec c75jobs c75apps).2 (by decide) "acme" (by decide)
  obtain ⟨-, htot, hsucc, hrate⟩ := (get_success_rate_by_company_spec c75jobs c75apps).1 r hr
  refine ⟨r, hr, hrc, ?_, ?_, ?_⟩
  · rw [htot, hrc]
    decide
  · rw [hsucc, hrc]
    decide
  · rw [hrate, hrc]
    rw [show submittedCount c75jobs c75apps "acme" = 3 from by decide,
      show appCount c75jobs c75apps "acme" = 4 from by decide]
    rw [show (100 * ((3 : Nat) : ℚ) / ((4 : Nat) : ℚ)) = ((7500 : ℤ) : ℚ) / 100 by norm_num]
    rw [round2]
    rw [show (((7500 : ℤ) : ℚ) / 100 * 100) = ((7500 : ℤ) : ℚ) by norm_num]
    rw [round_intCast]
    norm_num

end TLA
